import Mathlib

/-!
Shallow embedding of the figma-sync service (two variants of the same
program: the fuller one, kept here under the namespace Part000, and the
simpler one at tools/figma-sync/server.js, kept under ServerJs).

The program listens for a design-tool webhook, fetches the design
document, derives a fixed set of generated source files from it, and
publishes them to a version-control host as a new branch with an open
change request.  Effectful steps are embedded as pure functions: the
host is an oracle record (live head resolution and content addressing
are its function fields), the upstream fetch is a response value passed
to the handler, and the wall clock is an explicit argument.  Every
write the pipeline performs against the host is recorded in an explicit
write trace so that frame properties (which runs do or do not touch the
host) are provable.
-/

namespace FigmaSync

/-- Design-tool node as the program sees it: a JSON object that may or
may not carry a type tag, a name, and a children array.  Absent fields
are none, matching optional chaining in the source. -/
inductive FNode : Type where
  | mk : Option String → Option String → Option (List FNode) → FNode

/-- Type tag of a node (n.type in the source). -/
def FNode.type : FNode → Option String
  | .mk t _ _ => t

/-- Name of a node (n.name in the source). -/
def FNode.name : FNode → Option String
  | .mk _ n _ => n

/-- Children array of a node (n.children in the source). -/
def FNode.children : FNode → Option (List FNode)
  | .mk _ _ c => c

/-- Payload returned by the design-tool file endpoint: an object whose
document field may be absent. -/
structure FigmaJson where
  document : Option FNode

/-- JavaScript a || b on an optional string against a string default:
empty string and absent are both falsy and fall through to the default. -/
def jsOrStr : Option String → String → String
  | some s, d => if s = "" then d else s
  | none, d => d

/-- Truthiness filter for an optional string: a present empty string is
falsy in JavaScript, so it collapses to none. -/
def jsTruthyStr : Option String → Option String
  | some s => if s = "" then none else some s
  | none => none

/-- Hexadecimal digit used by the JSON control-character escape. -/
def hexDigit (n : Nat) : Char :=
  if n < 10 then Char.ofNat (48 + n) else Char.ofNat (87 + n)

/-- Escape of one character under JSON.stringify string quoting. -/
def jsonEscapeChar (c : Char) : String :=
  if c = '"' then "\\\""
  else if c = '\\' then "\\\\"
  else if c = '\n' then "\\n"
  else if c = '\r' then "\\r"
  else if c = '\t' then "\\t"
  else if c = '\x08' then "\\b"
  else if c = '\x0c' then "\\f"
  else if c.toNat < 32 then
    String.mk ['\\', 'u', '0', '0', hexDigit (c.toNat / 16), hexDigit (c.toNat % 16)]
  else String.singleton c

/-- JSON string literal for s, with JSON.stringify escaping. -/
def jsonQuote (s : String) : String :=
  "\"" ++ String.join (s.data.map jsonEscapeChar) ++ "\""

/-- JSON literal for one array element that is a string or undefined:
JSON.stringify renders an undefined array element as null. -/
def jsonLit : Option String → String
  | none => "null"
  | some s => jsonQuote s

/-- JSON.stringify(xs, null, 2) for an array of strings (possibly with
undefined holes): [] for the empty array, otherwise one element per
line at indent 2. -/
def jsonStringifyStrings (xs : List (Option String)) : String :=
  match xs with
  | [] => "[]"
  | _ => "[\n" ++ String.intercalate ",\n" (xs.map (fun s => "  " ++ jsonLit s)) ++ "\n]"

/-- figmaJson.document?.children?.[0]?.children || [] — the direct
children of the first page, or the empty list when any link of the
optional chain is absent. -/
def pageChildren (j : FigmaJson) : List FNode :=
  ((((j.document.bind FNode.children).bind (fun l => l.get? 0)).bind FNode.children)).getD []

/-- Names of the frame-typed nodes of a node list, in order: the
filter-and-map the generator applies to the first page children. -/
def listTopFrames (l : List FNode) : List (Option String) :=
  (l.filter (fun n => n.type == some "FRAME")).map FNode.name

/-- topFrames of the source: names of the direct children of the first
page whose type is FRAME, in sibling order. -/
def topFrames (j : FigmaJson) : List (Option String) :=
  listTopFrames (pageChildren j)

/-- Content of the generated screens manifest, identical in both
variants of the program. -/
def screensContent (j : FigmaJson) : String :=
  "export const screens = " ++ jsonStringifyStrings (topFrames j) ++ " as const;"

/-- JSON.stringify of the fixed token object (color.primary, spacing.m)
at indent 2 — a constant of the program, identical in both variants. -/
def tokensJson : String :=
  "\x7b\n  \"color\": \x7b\n    \"primary\": \"#0EA5E9\"\n  \x7d,\n  \"spacing\": \x7b\n    \"m\": 16\n  \x7d\n\x7d"

/-- Content of the generated index module, identical in both variants. -/
def indexTs : String :=
  "export \x7b default as Home \x7d from \"./Home\";\nexport \x7b screens \x7d from \"./screens.map\";"

/-- Hardcoded Home screen module of the fuller variant. -/
def Part000.homeTsx : String :=
  "export default function Home()\x7b\n  return (\n    <div style=\x7b\x7b padding: 16 \x7d\x7d>\n      <h1>GRITHER</h1>\n      <p>Этот экран сгенерирован из Figma build.</p>\n    </div>\n  );\n\x7d"

/-- Hardcoded Home screen module of the simpler variant. -/
def ServerJs.homeTsx : String :=
  "export default function Home()\x7b\n  return (<div style=\x7b\x7bpadding:16\x7d\x7d>\n    <h1>GRITHER</h1>\n    <p>Этот экран сгенерирован из Figma build.</p>\n  </div>);\n\x7d"

/-- generateCode of the fuller variant: an insertion-ordered map from
repository path to file content.  target is the CODEGEN_TARGET
configuration value prefixed to every path. -/
def Part000.generateCode (target : String) (j : FigmaJson) : List (String × String) :=
  [ (target ++ "/src/tokens.json", tokensJson),
    (target ++ "/src/generated/screens.map.ts", screensContent j),
    (target ++ "/src/generated/Home.tsx", Part000.homeTsx),
    (target ++ "/src/generated/index.ts", indexTs) ]

/-- generateCode of the simpler variant: same paths and manifest, its
own hardcoded Home module. -/
def ServerJs.generateCode (target : String) (j : FigmaJson) : List (String × String) :=
  [ (target ++ "/src/tokens.json", tokensJson),
    (target ++ "/src/generated/screens.map.ts", screensContent j),
    (target ++ "/src/generated/Home.tsx", ServerJs.homeTsx),
    (target ++ "/src/generated/index.ts", indexTs) ]

/-- The four paths either generator ever emits, in emission order. -/
def fixedPaths (target : String) : List String :=
  [ target ++ "/src/tokens.json",
    target ++ "/src/generated/screens.map.ts",
    target ++ "/src/generated/Home.tsx",
    target ++ "/src/generated/index.ts" ]

/-- Entry of the tree the publish step builds: one per generated file,
with the fixed file mode of the source and the content-addressed blob
sha. -/
structure TreeItem where
  path : String
  mode : String
  sha : String

/-- Commit object handed to the host: message, tree sha, parent shas. -/
structure Commit where
  message : String
  tree : String
  parents : List String

/-- Change request handed to the host: head branch, base branch, title
and body. -/
structure PullReq where
  head : String
  base : String
  title : String
  body : String

/-- Version-control host as the publish step sees it at the moment the
publish starts: the repository default branch field, the live resolver
from a ref name to its head commit sha, and the content-addressed sha
functions for blobs, trees and commits. -/
structure Host where
  default_branch : Option String
  headOf : String → String
  blobSha : String → String
  treeShaOf : String → List TreeItem → String
  commitShaOf : Commit → String

/-- Everything one publish creates on the host: the branch ref and its
sha, the commit object, the blob contents written (in file order), the
base the tree was layered on and its entries, and the opened change
request. -/
structure PublishResult where
  branchRef : String
  branchSha : String
  commit : Commit
  blobs : List String
  treeBase : String
  treeItems : List TreeItem
  pull : PullReq

/-- One write operation against the host, in the order the pipeline
issues them. -/
inductive HostWrite : Type where
  | blob : String → HostWrite
  | tree : String → List TreeItem → HostWrite
  | commit : Commit → HostWrite
  | ref : String → String → HostWrite
  | pull : PullReq → HostWrite

/-- Write trace of one publish: one blob per file, then the tree, the
commit, the branch ref, and the change request. -/
def PublishResult.writes (r : PublishResult) : List HostWrite :=
  r.blobs.map HostWrite.blob ++
    [HostWrite.tree r.treeBase r.treeItems, HostWrite.commit r.commit,
     HostWrite.ref r.branchRef r.branchSha, HostWrite.pull r.pull]

/-- openPR of the fuller variant: resolve the default branch (falling
back to main), read the live head of that branch, write one blob per
file, layer one tree on the base, create a commit whose single parent
is the resolved base head, create the branch figma-sync/now, and open
the change request with the fixed title and body. -/
def Part000.openPR (host : Host) (files : List (String × String)) (now : Nat) : PublishResult :=
  let baseBranch := jsOrStr host.default_branch "main"
  let baseSha := host.headOf ("heads/" ++ baseBranch)
  let branch := "figma-sync/" ++ toString now
  let treeItems := files.map (fun pc => TreeItem.mk pc.1 "100644" (host.blobSha pc.2))
  let commit := Commit.mk "chore(figma): auto-sync" (host.treeShaOf baseSha treeItems) [baseSha]
  { branchRef := "refs/heads/" ++ branch
    branchSha := host.commitShaOf commit
    commit := commit
    blobs := files.map Prod.snd
    treeBase := baseSha
    treeItems := treeItems
    pull := PullReq.mk branch baseBranch "Figma → GitHub auto-sync"
      "Этот PR автоматически создан из изменений в Figma." }

/-- openPR of the simpler variant: same shape, but the base branch is
the hardcoded main. -/
def ServerJs.openPR (host : Host) (files : List (String × String)) (now : Nat) : PublishResult :=
  let baseSha := host.headOf "heads/main"
  let branch := "figma-sync/" ++ toString now
  let treeItems := files.map (fun pc => TreeItem.mk pc.1 "100644" (host.blobSha pc.2))
  let commit := Commit.mk "chore(figma): auto-sync" (host.treeShaOf baseSha treeItems) [baseSha]
  { branchRef := "refs/heads/" ++ branch
    branchSha := host.commitShaOf commit
    commit := commit
    blobs := files.map Prod.snd
    treeBase := baseSha
    treeItems := treeItems
    pull := PullReq.mk branch "main" "Figma → GitHub auto-sync"
      "Этот PR автоматически создан из изменений в Figma." }

/-- Response of the design-tool file endpoint as the fetch sees it: the
ok flag, the numeric status, the body text (already resolved, with the
empty-string fallback of the source applied), and the parsed JSON. -/
structure HttpResp where
  ok : Bool
  status : Nat
  text : String
  json : FigmaJson

/-- Message of the error the fuller variant throws on a non-ok
response. -/
def Part000.figmaApiError (res : HttpResp) : String :=
  "Figma API error: " ++ toString res.status ++ " " ++ res.text

/-- fetchFigmaDoc of the fuller variant: the parsed JSON on an ok
response, otherwise the thrown error (status and body text). -/
def Part000.fetchFigmaDoc (res : HttpResp) : Except String FigmaJson :=
  if res.ok then Except.ok res.json else Except.error (Part000.figmaApiError res)

/-- fetchFigmaDoc of the simpler variant: its thrown error carries only
the status. -/
def ServerJs.fetchFigmaDoc (res : HttpResp) : Except String FigmaJson :=
  if res.ok then Except.ok res.json
  else Except.error ("Figma API error: " ++ toString res.status)

/-- Webhook request body fields the handler reads, each possibly
absent. -/
structure WebhookBody where
  event_type : Option String
  file_key : Option String
  file_id : Option String

/-- fileId of the handler: file_key || file_id under JavaScript
truthiness, collapsed to none when the resulting value is falsy (so the
guard that compares it with the configured file id fires exactly when
this is some value). -/
def webhookFileId (b : WebhookBody) : Option String :=
  match jsTruthyStr b.file_key with
  | some s => some s
  | none => jsTruthyStr b.file_id

/-- Outcome of one webhook invocation: skipped with an HTTP status and
no publish, published with the publish record, or failed with the HTTP
status and the stringified error. -/
inductive RunOutcome : Type where
  | skipped : Nat → RunOutcome
  | published : Nat → PublishResult → RunOutcome
  | failed : Nat → String → RunOutcome

/-- Host writes an outcome performed: those of its publish, if it
published. -/
def RunOutcome.writes : RunOutcome → List HostWrite
  | .published _ r => r.writes
  | _ => []

/-- Fetch-generate-publish chain of the fuller variant, after the
file-id guard: a non-ok fetch throws, is caught, and is answered with
status 500 and the stringified Error; an ok fetch flows through
generateCode and openPR and is answered with status 200. -/
def Part000.runPipeline (target : String) (res : HttpResp) (host : Host) (now : Nat) :
    RunOutcome :=
  match Part000.fetchFigmaDoc res with
  | Except.error e => RunOutcome.failed 500 ("Error: " ++ e)
  | Except.ok doc =>
      RunOutcome.published 200 (Part000.openPR host (Part000.generateCode target doc) now)

/-- Webhook handler of the fuller variant: when the payload carries a
truthy file id different from the configured one, answer 200 and do
nothing else; otherwise run the pipeline. -/
def Part000.handleWebhook (cfgFileId target : String) (body : WebhookBody)
    (res : HttpResp) (host : Host) (now : Nat) : RunOutcome :=
  match webhookFileId body with
  | some fid =>
      if fid = cfgFileId then Part000.runPipeline target res host now
      else RunOutcome.skipped 200
  | none => Part000.runPipeline target res host now

/-- Webhook handler of the simpler variant: no file-id guard, every
request runs the pipeline. -/
def ServerJs.handleWebhook (target : String) (res : HttpResp) (host : Host) (now : Nat) :
    RunOutcome :=
  match ServerJs.fetchFigmaDoc res with
  | Except.error e => RunOutcome.failed 500 ("Error: " ++ e)
  | Except.ok doc =>
      RunOutcome.published 200 (ServerJs.openPR host (ServerJs.generateCode target doc) now)

/-- Number of branch-ref writes in a trace. -/
def countRefs (ws : List HostWrite) : Nat :=
  (ws.filter (fun w => match w with | HostWrite.ref _ _ => true | _ => false)).length

/-- Number of change-request writes in a trace. -/
def countPulls (ws : List HostWrite) : Nat :=
  (ws.filter (fun w => match w with | HostWrite.pull _ => true | _ => false)).length

/-- A node with the same type tag and name but no children: what a node
contributes to the generator, which never descends into children of a
page child. -/
def pruneNode : FNode → FNode
  | .mk t n _ => .mk t n none

/-- The document with every grandchild of the first page removed:
each direct child of the first page keeps its type and name but loses
its subtree.  Used to state that generation never looks below the
direct children of the first page. -/
def pruneGrandchildren (j : FigmaJson) : FigmaJson :=
  match j.document with
  | none => j
  | some d =>
    match d.children with
    | none => j
    | some pages =>
      match pages with
      | [] => j
      | p :: rest =>
        match p.children with
        | none => j
        | some cs =>
          FigmaJson.mk (some (FNode.mk d.type d.name
            (some (FNode.mk p.type p.name (some (cs.map pruneNode)) :: rest))))

/-- Document whose payload carries no document at all: the degenerate
zero-screen input. -/
def docEmpty : FigmaJson := FigmaJson.mk none

/-- Document whose first page has two top-level FRAME children both
named Home. -/
def docHomes : FigmaJson :=
  FigmaJson.mk (some (FNode.mk (some "DOCUMENT") (some "Document")
    (some [FNode.mk (some "CANVAS") (some "Page 1")
      (some [FNode.mk (some "FRAME") (some "Home") (some []),
             FNode.mk (some "FRAME") (some "Home") (some [])])])))

/-- Document whose first page has one unsupported GROUP child that
contains a FRAME named Nested. -/
def docNested : FigmaJson :=
  FigmaJson.mk (some (FNode.mk (some "DOCUMENT") (some "Document")
    (some [FNode.mk (some "CANVAS") (some "Page 1")
      (some [FNode.mk (some "GROUP") (some "Wrapper")
        (some [FNode.mk (some "FRAME") (some "Nested") (some [])])])])))

/-- Like docNested but with the GROUP child childless: the two
documents agree on the pruned view of the first page children. -/
def docGroupOnly : FigmaJson :=
  FigmaJson.mk (some (FNode.mk (some "DOCUMENT") (some "Document")
    (some [FNode.mk (some "CANVAS") (some "Page 1")
      (some [FNode.mk (some "GROUP") (some "Wrapper") none])])))

/-- A concrete host snapshot for closed evaluations. -/
def hostD : Host :=
  Host.mk (some "main") (fun r => "head-of-" ++ r) (fun c => "blob-" ++ toString c.length)
    (fun _ _ => "tree-sha") (fun _ => "commit-sha")

/-- Webhook body carrying no file id at all. -/
def bodyNone : WebhookBody := WebhookBody.mk none none none

/-- Webhook body whose file_key names a different design document. -/
def bodyOther : WebhookBody := WebhookBody.mk (some "FILE_UPDATE") (some "OTHER") none

/-- An ok response carrying the two-Home document. -/
def resOkHomes : HttpResp := HttpResp.mk true 200 "" docHomes

/-- A 403 response: the upstream fetch fails with an authorization
error. -/
def resErr : HttpResp := HttpResp.mk false 403 "forbidden" docEmpty

/-- One-file set and two-file set used to compare change-request
metadata across different deltas. -/
def filesOne : List (String × String) := [("a.txt", "x")]

/-- Two-file set: a publish that adds two files. -/
def filesTwo : List (String × String) := [("a.txt", "x"), ("b.txt", "y")]

/-- Blob writes are neither branch-ref writes nor change-request
writes, so they do not change the ref count of a trace. -/
theorem countRefs_blobs_append (l : List String) (rest : List HostWrite) :
    countRefs (l.map HostWrite.blob ++ rest) = countRefs rest := by
  induction l with
  | nil => rfl
  | cons a t ih => simp [countRefs]

/-- Blob writes do not change the change-request count of a trace. -/
theorem countPulls_blobs_append (l : List String) (rest : List HostWrite) :
    countPulls (l.map HostWrite.blob ++ rest) = countPulls rest := by
  induction l with
  | nil => rfl
  | cons a t ih => simp [countPulls]

/-- Every publish writes exactly one branch ref. -/
theorem countRefs_publish_writes (r : PublishResult) : countRefs r.writes = 1 := by
  unfold PublishResult.writes
  rw [countRefs_blobs_append]
  rfl

/-- Every publish opens exactly one change request. -/
theorem countPulls_publish_writes (r : PublishResult) : countPulls r.writes = 1 := by
  unfold PublishResult.writes
  rw [countPulls_blobs_append]
  rfl

/-- Appending on the left is cancellable for strings. -/
theorem append_left_cancel_str {t a b : String} (h : t ++ a = t ++ b) : a = b := by
  have h2 : t.data ++ a.data = t.data ++ b.data := by
    have h3 := congrArg String.data h
    simpa using h3
  exact String.ext (List.append_cancel_left h2)

/-- The four fixed generated paths are pairwise distinct for every
target prefix, so no emitted file can overwrite another. -/
theorem fixedPaths_nodup (target : String) : (fixedPaths target).Nodup := by
  have hmap : fixedPaths target =
      ["/src/tokens.json", "/src/generated/screens.map.ts",
       "/src/generated/Home.tsx", "/src/generated/index.ts"].map (fun s => target ++ s) := rfl
  rw [hmap]
  exact List.Nodup.map (fun a b hab => append_left_cancel_str hab) (by decide)

/-- Dropping the subtree of every node of a list changes neither which
nodes pass the frame filter nor the names the generator collects. -/
theorem listTopFrames_map_pruneNode (l : List FNode) :
    listTopFrames (l.map pruneNode) = listTopFrames l := by
  induction l with
  | nil => rfl
  | cons a t ih =>
    cases a with
    | mk ty nm ch =>
      by_cases h : (ty == some "FRAME") = true
      · simp only [listTopFrames, List.map_cons, List.filter_cons] at ih ⊢
        simp only [pruneNode, FNode.type, h, if_true, List.map_cons, FNode.name]
        exact congrArg (nm :: ·) ih
      · simp only [listTopFrames, List.map_cons, List.filter_cons] at ih ⊢
        simp only [pruneNode, FNode.type, h, if_false]
        exact ih

/-- The direct first-page children of the pruned document are the
pruned direct first-page children of the document. -/
theorem pageChildren_prune (j : FigmaJson) :
    pageChildren (pruneGrandchildren j) = (pageChildren j).map pruneNode := by
  cases j with
  | mk doc =>
    cases doc with
    | none => rfl
    | some d =>
      cases d with
      | mk dt dn dc =>
        cases dc with
        | none => rfl
        | some pages =>
          cases pages with
          | nil => rfl
          | cons p rest =>
            cases p with
            | mk pt pn pc =>
              cases pc with
              | none => rfl
              | some cs => rfl

/-- C1: the claim says a second run on an unchanged document creates no
new branch and no new change request.  On the code it is false: this
concrete document, submitted twice in a row (times 1 and 2) with the
webhook guard passing and the fetch succeeding, yields one branch-ref
write and one change-request write on the second run exactly as on the
first. -/
theorem C1_counterexample :
    countRefs ((Part000.handleWebhook "FILE1" "t" bodyNone resOkHomes hostD 1).writes) = 1 ∧
    countPulls ((Part000.handleWebhook "FILE1" "t" bodyNone resOkHomes hostD 1).writes) = 1 ∧
    countRefs ((Part000.handleWebhook "FILE1" "t" bodyNone resOkHomes hostD 2).writes) = 1 ∧
    countPulls ((Part000.handleWebhook "FILE1" "t" bodyNone resOkHomes hostD 2).writes) = 1 :=
  ⟨rfl, rfl, rfl, rfl⟩

/-- C1 (amended): the pipeline has no snapshot diff engine, so a rerun
on an unchanged document is never a no-op: every run that passes the
file-id guard and whose document fetch succeeds — in particular the
second of two identical runs — creates exactly one new branch ref and
exactly one new change request, in both variants of the program. -/
theorem C1_second_run_still_publishes (cfg target : String) (body : WebhookBody)
    (res : HttpResp) (host : Host) (now : Nat)
    (hguard : webhookFileId body = none ∨ webhookFileId body = some cfg)
    (hok : res.ok = true) :
    countRefs ((Part000.handleWebhook cfg target body res host now).writes) = 1 ∧
    countPulls ((Part000.handleWebhook cfg target body res host now).writes) = 1 ∧
    countRefs ((ServerJs.handleWebhook target res host now).writes) = 1 ∧
    countPulls ((ServerJs.handleWebhook target res host now).writes) = 1 := by
  have h1 : Part000.handleWebhook cfg target body res host now =
      RunOutcome.published 200
        (Part000.openPR host (Part000.generateCode target res.json) now) := by
    unfold Part000.handleWebhook Part000.runPipeline Part000.fetchFigmaDoc
    rcases hguard with h | h <;> rw [h] <;> simp [hok]
  have h2 : ServerJs.handleWebhook target res host now =
      RunOutcome.published 200
        (ServerJs.openPR host (ServerJs.generateCode target res.json) now) := by
    unfold ServerJs.handleWebhook ServerJs.fetchFigmaDoc
    simp [hok]
  refine ⟨?_, ?_, ?_, ?_⟩
  · rw [h1]; exact countRefs_publish_writes _
  · rw [h1]; exact countPulls_publish_writes _
  · rw [h2]; exact countRefs_publish_writes _
  · rw [h2]; exact countPulls_publish_writes _

/-- C1 (witness): the amended theorem applied to a concrete second run. -/
theorem C1_witness :
    (webhookFileId bodyNone = none ∨ webhookFileId bodyNone = some "FILE1") ∧
    resOkHomes.ok = true ∧
    (countRefs ((Part000.handleWebhook "FILE1" "t" bodyNone resOkHomes hostD 2).writes) = 1 ∧
     countPulls ((Part000.handleWebhook "FILE1" "t" bodyNone resOkHomes hostD 2).writes) = 1 ∧
     countRefs ((ServerJs.handleWebhook "t" resOkHomes hostD 2).writes) = 1 ∧
     countPulls ((ServerJs.handleWebhook "t" resOkHomes hostD 2).writes) = 1) :=
  ⟨Or.inl rfl, rfl,
    C1_second_run_still_publishes "FILE1" "t" bodyNone resOkHomes hostD 2 (Or.inl rfl) rfl⟩

/-- C2: the claim says a zero-screen document yields no per-screen
module files.  On the code it is false: for the zero-screen document
the generated file set still contains the screen module Home.tsx, in
both variants. -/
theorem C2_counterexample :
    topFrames docEmpty = [] ∧
    "t/src/generated/Home.tsx" ∈ (Part000.generateCode "t" docEmpty).map Prod.fst ∧
    "t/src/generated/Home.tsx" ∈ (ServerJs.generateCode "t" docEmpty).map Prod.fst := by
  refine ⟨rfl, ?_, ?_⟩ <;> decide

/-- C2 (amended): for every document with zero top-level frames the
screens manifest is the empty ordered sequence and the design-tokens
and index artifacts are still present, but the generator also still
emits its one hardcoded screen module Home.tsx — the module files are
fixed and independent of the screen list. -/
theorem C2_zero_screens_amended (target : String) (j : FigmaJson)
    (h : topFrames j = []) :
    Part000.generateCode target j =
      [ (target ++ "/src/tokens.json", tokensJson),
        (target ++ "/src/generated/screens.map.ts", "export const screens = [] as const;"),
        (target ++ "/src/generated/Home.tsx", Part000.homeTsx),
        (target ++ "/src/generated/index.ts", indexTs) ] ∧
    ServerJs.generateCode target j =
      [ (target ++ "/src/tokens.json", tokensJson),
        (target ++ "/src/generated/screens.map.ts", "export const screens = [] as const;"),
        (target ++ "/src/generated/Home.tsx", ServerJs.homeTsx),
        (target ++ "/src/generated/index.ts", indexTs) ] := by
  have hs : screensContent j = "export const screens = [] as const;" := by
    unfold screensContent
    rw [h]
    rfl
  constructor <;> simp [Part000.generateCode, ServerJs.generateCode, hs]

/-- C2 (witness): the amended theorem applied to the empty document. -/
theorem C2_witness :
    topFrames docEmpty = [] ∧
    (Part000.generateCode "t" docEmpty =
      [ ("t/src/tokens.json", tokensJson),
        ("t/src/generated/screens.map.ts", "export const screens = [] as const;"),
        ("t/src/generated/Home.tsx", Part000.homeTsx),
        ("t/src/generated/index.ts", indexTs) ] ∧
     ServerJs.generateCode "t" docEmpty =
      [ ("t/src/tokens.json", tokensJson),
        ("t/src/generated/screens.map.ts", "export const screens = [] as const;"),
        ("t/src/generated/Home.tsx", ServerJs.homeTsx),
        ("t/src/generated/index.ts", indexTs) ]) :=
  ⟨rfl, C2_zero_screens_amended "t" docEmpty rfl⟩

/-- C3: the claim says two top-level frames both named Home yield two
distinct per-frame module paths.  On the code it is false: for the
concrete document with two Home frames the emitted paths are the fixed
four — identical to the paths for a document with no frames at all —
with a single module path Home.tsx, so no per-frame paths and no
disambiguation exist. -/
theorem C3_counterexample :
    topFrames docHomes = [some "Home", some "Home"] ∧
    (Part000.generateCode "t" docHomes).map Prod.fst = fixedPaths "t" ∧
    (Part000.generateCode "t" docHomes).map Prod.fst =
      (Part000.generateCode "t" docEmpty).map Prod.fst ∧
    (ServerJs.generateCode "t" docHomes).map Prod.fst = fixedPaths "t" :=
  ⟨rfl, rfl, rfl, rfl⟩

/-- C3 (amended): the emitted path list is a fixed function of the
target prefix alone — two frames named Home share the single hardcoded
module path and are not disambiguated — and the four fixed paths are
pairwise distinct, so no emitted file overwrites another emitted
file. -/
theorem C3_paths_fixed_and_distinct (target : String) (j : FigmaJson) :
    (Part000.generateCode target j).map Prod.fst = fixedPaths target ∧
    (ServerJs.generateCode target j).map Prod.fst = fixedPaths target ∧
    (fixedPaths target).Nodup :=
  ⟨rfl, rfl, fixedPaths_nodup target⟩

/-- C4: every publish builds a commit with exactly one parent, and that
parent is the head of the base branch as the host resolves it at the
start of that same publish (the fuller variant resolves the default
branch with a main fallback, the simpler one uses main directly). -/
theorem C4_commit_single_parent_live_head (host : Host) (files : List (String × String))
    (now : Nat) :
    (Part000.openPR host files now).commit.parents =
      [host.headOf ("heads/" ++ jsOrStr host.default_branch "main")] ∧
    (Part000.openPR host files now).commit.parents.length = 1 ∧
    (ServerJs.openPR host files now).commit.parents = [host.headOf "heads/main"] ∧
    (ServerJs.openPR host files now).commit.parents.length = 1 :=
  ⟨rfl, rfl, rfl, rfl⟩

/-- C5: when the design-document fetch returns a non-ok response, the
webhook run (with its file-id guard passing) answers 500 with the
stringified fetch error and performs no write against the host: no
blob, tree, commit, branch ref or change request appears in its write
trace. -/
theorem C5_fetch_error_no_host_writes (cfg target : String) (body : WebhookBody)
    (res : HttpResp) (host : Host) (now : Nat)
    (hguard : webhookFileId body = none ∨ webhookFileId body = some cfg)
    (hfail : res.ok = false) :
    Part000.handleWebhook cfg target body res host now =
      RunOutcome.failed 500 ("Error: " ++ Part000.figmaApiError res) ∧
    (Part000.handleWebhook cfg target body res host now).writes = [] := by
  have h1 : Part000.handleWebhook cfg target body res host now =
      RunOutcome.failed 500 ("Error: " ++ Part000.figmaApiError res) := by
    unfold Part000.handleWebhook Part000.runPipeline Part000.fetchFigmaDoc
    rcases hguard with h | h <;> rw [h] <;> simp [hfail]
  exact ⟨h1, by rw [h1]; rfl⟩

/-- C5 (witness): the theorem applied to a concrete 403 response. -/
theorem C5_witness :
    (webhookFileId bodyNone = none ∨ webhookFileId bodyNone = some "FILE1") ∧
    resErr.ok = false ∧
    (Part000.handleWebhook "FILE1" "t" bodyNone resErr hostD 1 =
        RunOutcome.failed 500 ("Error: " ++ Part000.figmaApiError resErr) ∧
     (Part000.handleWebhook "FILE1" "t" bodyNone resErr hostD 1).writes = []) :=
  ⟨Or.inl rfl, rfl,
    C5_fetch_error_no_host_writes "FILE1" "t" bodyNone resErr hostD 1 (Or.inl rfl) rfl⟩

/-- C6: generation is a pure function of its input — the source
generateCode performs no I/O and reads nothing mutable besides the
CODEGEN_TARGET configuration, embedded as the target argument — so
running it twice on the same document with the same configuration
yields byte-identical file sets, in both variants. -/
theorem C6_generation_deterministic (target : String) (j : FigmaJson) :
    Part000.generateCode target j = Part000.generateCode target j ∧
    ServerJs.generateCode target j = ServerJs.generateCode target j :=
  ⟨rfl, rfl⟩

/-- C7: the claim says a supported frame nested inside an unsupported
ancestor still appears in the generator output.  On the code it is
false: the document whose first page holds one GROUP child containing a
FRAME named Nested generates exactly the same file set as the document
with no content at all — the nested frame is lost and the screens
manifest is empty. -/
theorem C7_counterexample :
    topFrames docNested = [] ∧
    screensContent docNested = "export const screens = [] as const;" ∧
    Part000.generateCode "t" docNested = Part000.generateCode "t" docEmpty ∧
    ServerJs.generateCode "t" docNested = ServerJs.generateCode "t" docEmpty :=
  ⟨rfl, rfl, rfl, rfl⟩

/-- C7 (amended): the generator reads only the type and name of the
direct children of the first page and never visits any deeper
descendant, supported or not: replacing every such child by its
childless copy leaves the generated file set unchanged, in both
variants.  In particular a frame nested below the top level never
appears in the output. -/
theorem C7_descendants_ignored (target : String) (j : FigmaJson) :
    Part000.generateCode target (pruneGrandchildren j) = Part000.generateCode target j ∧
    ServerJs.generateCode target (pruneGrandchildren j) = ServerJs.generateCode target j := by
  have hs : screensContent (pruneGrandchildren j) = screensContent j := by
    unfold screensContent topFrames
    rw [pageChildren_prune, listTopFrames_map_pruneNode]
  constructor <;> simp [Part000.generateCode, ServerJs.generateCode, hs]

/-- C8: the claim says the change-request title and body are generated
from the snapshot-delta summary, a two-file publish being titled to
reflect two files added.  On the code it is false: a publish adding two
files carries the constant title Figma → GitHub auto-sync, identical —
body included — to the metadata of a publish adding one file, so
neither field reflects the counts. -/
theorem C8_counterexample :
    (Part000.openPR hostD filesTwo 0).pull.title = "Figma → GitHub auto-sync" ∧
    (Part000.openPR hostD filesTwo 0).pull.title = (Part000.openPR hostD filesOne 0).pull.title ∧
    (Part000.openPR hostD filesTwo 0).pull.body = (Part000.openPR hostD filesOne 0).pull.body :=
  ⟨rfl, rfl, rfl⟩

/-- C8 (amended): the title and body of every created change request
are fixed constants, independent of the published file set and of any
delta summary, in both variants. -/
theorem C8_constant_title_body (host : Host) (files : List (String × String)) (now : Nat) :
    (Part000.openPR host files now).pull.title = "Figma → GitHub auto-sync" ∧
    (Part000.openPR host files now).pull.body =
      "Этот PR автоматически создан из изменений в Figma." ∧
    (ServerJs.openPR host files now).pull.title = "Figma → GitHub auto-sync" ∧
    (ServerJs.openPR host files now).pull.body =
      "Этот PR автоматически создан из изменений в Figma." :=
  ⟨rfl, rfl, rfl, rfl⟩

/-- C9: the generator is total over arbitrary payloads — document,
page list, or children may all be absent — and always returns exactly
the four paths tokens.json, screens.map.ts, Home.tsx and index.ts,
each prefixed by the configured target directory, in both variants. -/
theorem C9_generator_total_fixed_four_paths (target : String) (j : FigmaJson) :
    (Part000.generateCode target j).map Prod.fst = fixedPaths target ∧
    (ServerJs.generateCode target j).map Prod.fst = fixedPaths target ∧
    (fixedPaths target).length = 4 :=
  ⟨rfl, rfl, rfl⟩

/-- C10: when the webhook payload carries a (truthy) file identifier
different from the configured one, the handler answers 200, performs no
host write, and its outcome does not depend on the upstream response,
the host, or the time — no fetch, generation, or publish influences
it. -/
theorem C10_foreign_file_skips (cfg target : String) (body : WebhookBody)
    (res res₂ : HttpResp) (host host₂ : Host) (now now₂ : Nat) (fid : String)
    (hfid : webhookFileId body = some fid) (hne : fid ≠ cfg) :
    Part000.handleWebhook cfg target body res host now = RunOutcome.skipped 200 ∧
    (Part000.handleWebhook cfg target body res host now).writes = [] ∧
    Part000.handleWebhook cfg target body res host now =
      Part000.handleWebhook cfg target body res₂ host₂ now₂ := by
  have h1 : ∀ (r : HttpResp) (h : Host) (n : Nat),
      Part000.handleWebhook cfg target body r h n = RunOutcome.skipped 200 := by
    intro r h n
    unfold Part000.handleWebhook
    rw [hfid]
    simp [hne]
  exact ⟨h1 res host now, by rw [h1]; rfl, by rw [h1 res host now, h1 res₂ host₂ now₂]⟩

/-- C10 (witness): the theorem applied to a payload naming another
file. -/
theorem C10_witness :
    webhookFileId bodyOther = some "OTHER" ∧ "OTHER" ≠ "FILE1" ∧
    (Part000.handleWebhook "FILE1" "t" bodyOther resOkHomes hostD 1 = RunOutcome.skipped 200 ∧
     (Part000.handleWebhook "FILE1" "t" bodyOther resOkHomes hostD 1).writes = [] ∧
     Part000.handleWebhook "FILE1" "t" bodyOther resOkHomes hostD 1 =
       Part000.handleWebhook "FILE1" "t" bodyOther resErr hostD 2) :=
  ⟨rfl, by decide,
    C10_foreign_file_skips "FILE1" "t" bodyOther resOkHomes resErr hostD hostD 1 2 "OTHER"
      rfl (by decide)⟩

end FigmaSync
